import Mathlib

/-!
Shallow embedding of the Layoffers marketplace server (src/server/routes.ts,
src/server/storage.ts, and the drizzle schema in shared/schema.ts).

The database is modelled as lists of rows; each storage-layer method of
DatabaseStorage becomes a pure function on the `DB` state, and each Express
handler becomes a function taking the resolved user id, the request body and
the generated values (row ids, the current time) and returning a response
together with the next state.  Statuses are the literal strings the code
compares against; decimal money columns are exact rationals; timestamps are
naturals.
-/

namespace Layoffers

/-- A row of the `users` table (shared/schema.ts `users`). -/
structure User where
  id : String
  email : Option String
  firstName : Option String
  lastName : Option String
  profileImageUrl : Option String
  role : String
  skills : Option (List String)
  experience : Option String
  portfolioUrl : Option String
  bio : Option String
  createdAt : Nat
  updatedAt : Nat
deriving DecidableEq, Repr

/-- A row of the `companies` table. -/
structure Company where
  id : String
  userId : String
  name : String
  description : Option String
  website : Option String
  logoUrl : Option String
  industry : Option String
  size : Option String
  status : String
  createdAt : Nat
  updatedAt : Nat
deriving DecidableEq, Repr

/-- A row of the `projects` table; `payment` is the decimal(10,2) column. -/
structure Project where
  id : String
  companyId : String
  title : String
  description : String
  requirements : Option String
  skills : Option (List String)
  payment : Rat
  difficulty : Option String
  deadline : Option Nat
  maxSubmissions : Option Int
  status : String
  createdAt : Nat
  updatedAt : Nat
deriving DecidableEq, Repr

/-- A row of the `submissions` table. -/
structure Submission where
  id : String
  projectId : String
  candidateId : String
  content : String
  attachmentUrl : Option String
  status : String
  feedback : Option String
  createdAt : Nat
  updatedAt : Nat
deriving DecidableEq, Repr

/-- A row of the `ratings` table; `score` is an unconstrained integer column. -/
structure Rating where
  id : String
  submissionId : String
  candidateId : String
  companyId : String
  score : Int
  review : Option String
  createdAt : Nat
deriving DecidableEq, Repr

/-- A row of the `payments` table. -/
structure Payment where
  id : String
  submissionId : String
  candidateId : String
  companyId : String
  amount : Rat
  status : String
  paidAt : Option Nat
  createdAt : Nat
deriving DecidableEq, Repr

/-- The persistent state: one list per table. -/
structure DB where
  users : List User
  companies : List Company
  projects : List Project
  submissions : List Submission
  ratings : List Rating
  payments : List Payment
deriving DecidableEq, Repr

/-! ## Storage layer (src/server/storage.ts, class DatabaseStorage)

Each `get` method is a `find?` over the table; each `update` method maps the
matching rows through the updates and stamps `updatedAt`, returning the
updated row as drizzle's `.returning()` does (or `none` when no row matched);
each `create` method appends the new row. -/

/-- DatabaseStorage.getUser. -/
def getUser (db : DB) (id : String) : Option User :=
  db.users.find? (fun u => u.id == id)

/-- The fields of `Partial<User>` that callers of `updateUserProfile` actually
pass (routes.ts passes either the six profile fields or `role`).  An outer
`none` models a field absent from the update object, which drizzle's `.set`
skips; an inner `none` models an explicit SQL NULL. -/
structure UserUpdates where
  firstName : Option (Option String) := none
  lastName : Option (Option String) := none
  bio : Option (Option String) := none
  skills : Option (Option (List String)) := none
  experience : Option (Option String) := none
  portfolioUrl : Option (Option String) := none
  role : Option String := none
  email : Option (Option String) := none
  id : Option String := none
deriving DecidableEq, Repr

/-- The effect of `.set({ ...updates, updatedAt: new Date() })` on one row. -/
def applyUserUpdates (u : User) (up : UserUpdates) (now : Nat) : User :=
  { u with
    id := up.id.getD u.id
    email := up.email.getD u.email
    firstName := up.firstName.getD u.firstName
    lastName := up.lastName.getD u.lastName
    bio := up.bio.getD u.bio
    skills := up.skills.getD u.skills
    experience := up.experience.getD u.experience
    portfolioUrl := up.portfolioUrl.getD u.portfolioUrl
    role := up.role.getD u.role
    updatedAt := now }

/-- DatabaseStorage.updateUserProfile. -/
def updateUserProfile (db : DB) (id : String) (up : UserUpdates) (now : Nat) :
    Option User × DB :=
  ((db.users.find? (fun u => u.id == id)).map (fun u => applyUserUpdates u up now),
   { db with users := db.users.map (fun u => if u.id == id then applyUserUpdates u up now else u) })

/-- DatabaseStorage.getCompany. -/
def getCompany (db : DB) (id : String) : Option Company :=
  db.companies.find? (fun c => c.id == id)

/-- DatabaseStorage.getCompanyByUserId. -/
def getCompanyByUserId (db : DB) (userId : String) : Option Company :=
  db.companies.find? (fun c => c.userId == userId)

/-- DatabaseStorage.createCompany: plain insert of the built row. -/
def createCompany (db : DB) (c : Company) : Company × DB :=
  (c, { db with companies := db.companies ++ [c] })

/-- The only update routes.ts ever passes to `updateCompany` is a status. -/
structure CompanyUpdates where
  status : Option String := none
deriving DecidableEq, Repr

/-- DatabaseStorage.updateCompany. -/
def updateCompany (db : DB) (id : String) (up : CompanyUpdates) (now : Nat) :
    Option Company × DB :=
  let f := fun (c : Company) => { c with status := up.status.getD c.status, updatedAt := now }
  ((db.companies.find? (fun c => c.id == id)).map f,
   { db with companies := db.companies.map (fun c => if c.id == id then f c else c) })

/-- DatabaseStorage.getProject. -/
def getProject (db : DB) (id : String) : Option Project :=
  db.projects.find? (fun p => p.id == id)

/-- DatabaseStorage.createProject: plain insert of the built row. -/
def createProject (db : DB) (p : Project) : Project × DB :=
  (p, { db with projects := db.projects ++ [p] })

/-- The only update routes.ts ever passes to `updateProject` is a status. -/
structure ProjectUpdates where
  status : Option String := none
deriving DecidableEq, Repr

/-- DatabaseStorage.updateProject. -/
def updateProject (db : DB) (id : String) (up : ProjectUpdates) (now : Nat) :
    Option Project × DB :=
  let f := fun (p : Project) => { p with status := up.status.getD p.status, updatedAt := now }
  ((db.projects.find? (fun p => p.id == id)).map f,
   { db with projects := db.projects.map (fun p => if p.id == id then f p else p) })

/-- DatabaseStorage.getSubmission. -/
def getSubmission (db : DB) (id : String) : Option Submission :=
  db.submissions.find? (fun s => s.id == id)

/-- DatabaseStorage.getSubmissionByProjectAndCandidate. -/
def getSubmissionByProjectAndCandidate (db : DB) (projectId candidateId : String) :
    Option Submission :=
  db.submissions.find? (fun s => s.projectId == projectId && s.candidateId == candidateId)

/-- DatabaseStorage.createSubmission: plain insert of the built row. -/
def createSubmission (db : DB) (s : Submission) : Submission × DB :=
  (s, { db with submissions := db.submissions ++ [s] })

/-- The update the review handler passes to `updateSubmission`: a status and a
possibly-absent feedback (an absent feedback is skipped by drizzle). -/
structure SubmissionUpdates where
  status : Option String := none
  feedback : Option String := none
deriving DecidableEq, Repr

/-- DatabaseStorage.updateSubmission. -/
def updateSubmission (db : DB) (id : String) (up : SubmissionUpdates) (now : Nat) :
    Option Submission × DB :=
  let f := fun (s : Submission) =>
    { s with
      status := up.status.getD s.status
      feedback := match up.feedback with | some t => some t | none => s.feedback
      updatedAt := now }
  ((db.submissions.find? (fun s => s.id == id)).map f,
   { db with submissions := db.submissions.map (fun s => if s.id == id then f s else s) })

/-- DatabaseStorage.createRating: plain insert, no validation of the score. -/
def createRating (db : DB) (r : Rating) : Rating × DB :=
  (r, { db with ratings := db.ratings ++ [r] })

/-- DatabaseStorage.getRatingsByCandidate. -/
def getRatingsByCandidate (db : DB) (candidateId : String) : List Rating :=
  db.ratings.filter (fun r => r.candidateId == candidateId)

/-- DatabaseStorage.createPayment: plain insert. -/
def createPayment (db : DB) (p : Payment) : Payment × DB :=
  (p, { db with payments := db.payments ++ [p] })

/-- The aggregate returned by DatabaseStorage.getCandidateStats (the string
serialisation of the money sum is elided; the value is the exact decimal). -/
structure CandidateStats where
  totalSubmissions : Nat
  completedProjects : Nat
  totalEarnings : Rat
  averageRating : Rat
deriving DecidableEq, Repr

/-- DatabaseStorage.getCandidateStats: four SQL aggregates; `averageRating` is
COALESCE(AVG(score), 0) over the candidate's ratings, so the average of an
empty set is the sentinel 0. -/
def getCandidateStats (db : DB) (candidateId : String) : CandidateStats :=
  let subs := db.submissions.filter (fun s => s.candidateId == candidateId)
  let completed := subs.filter (fun s => s.status == "approved")
  let paid := db.payments.filter (fun p => p.candidateId == candidateId && p.status == "paid")
  let scores := (db.ratings.filter (fun r => r.candidateId == candidateId)).map
    (fun r => (r.score : Rat))
  { totalSubmissions := subs.length
    completedProjects := completed.length
    totalEarnings := paid.foldl (fun acc p => acc + p.amount) 0
    averageRating := if scores.length = 0 then 0 else scores.sum / (scores.length : Rat) }

/-! ## HTTP layer (src/server/routes.ts)

A handler returns an `HttpResult` (the JSON payload on success, or the HTTP
status and message of the error response) together with the next state. -/

/-- Outcome of a handler: the JSON value sent on success, or status + message. -/
inductive HttpResult (α : Type) where
  | ok (value : α)
  | error (status : Nat) (message : String)
deriving DecidableEq, Repr

/-- The body of PATCH /api/profile as the handler reads it: the six
destructured fields, together with fields a client might also send (`role`,
`email`, `id`) which the destructuring drops on the floor. -/
structure ProfileBody where
  firstName : Option (Option String) := none
  lastName : Option (Option String) := none
  bio : Option (Option String) := none
  skills : Option (Option (List String)) := none
  experience : Option (Option String) := none
  portfolioUrl : Option (Option String) := none
  role : Option String := none
  email : Option (Option String) := none
  id : Option String := none
deriving DecidableEq, Repr

/-- PATCH /api/profile: forwards exactly the six destructured fields to
`updateUserProfile` and returns the updated row. -/
def patchProfile (db : DB) (userId : String) (body : ProfileBody) (now : Nat) :
    HttpResult (Option User) × DB :=
  let r := updateUserProfile db userId
    { firstName := body.firstName
      lastName := body.lastName
      bio := body.bio
      skills := body.skills
      experience := body.experience
      portfolioUrl := body.portfolioUrl } now
  (.ok r.1, r.2)

/-- POST /api/projects/:id/submissions. -/
def postSubmission (db : DB) (userId projectId : String) (content : String)
    (attachmentUrl : Option String) (newId : String) (now : Nat) :
    HttpResult Submission × DB :=
  match getProject db projectId with
  | none => (.error 400 "Project not available for submissions", db)
  | some project =>
    if project.status ≠ "active" then
      (.error 400 "Project not available for submissions", db)
    else
      match getSubmissionByProjectAndCandidate db projectId userId with
      | some _ => (.error 400 "You have already submitted to this project", db)
      | none =>
        let s : Submission :=
          { id := newId, projectId := projectId, candidateId := userId
            content := content, attachmentUrl := attachmentUrl, status := "pending"
            feedback := none, createdAt := now, updatedAt := now }
        let r := createSubmission db s
        (.ok r.1, r.2)

/-- The body of POST /api/company/profile as the handler destructures it. -/
structure CompanyBody where
  name : String
  description : Option String := none
  website : Option String := none
  industry : Option String := none
  size : Option String := none
deriving DecidableEq, Repr

/-- POST /api/company/profile.  The role flip and the company insert are two
separately awaited storage calls with no surrounding transaction;
`updateFails` / `createFails` model the corresponding database call throwing,
which the handler's catch turns into a 500 response without undoing any
earlier write. -/
def postCompanyProfile (db : DB) (userId : String) (body : CompanyBody)
    (newId : String) (now : Nat) (updateFails createFails : Bool) :
    HttpResult Company × DB :=
  match getCompanyByUserId db userId with
  | some _ => (.error 400 "You already have a company profile", db)
  | none =>
    if updateFails then (.error 500 "Failed to create company", db)
    else
      let db1 := (updateUserProfile db userId { role := some ("company") } now).2
      if createFails then (.error 500 "Failed to create company", db1)
      else
        let c : Company :=
          { id := newId, userId := userId, name := body.name
            description := body.description, website := body.website, logoUrl := none
            industry := body.industry, size := body.size, status := "pending"
            createdAt := now, updatedAt := now }
        let r := createCompany db1 c
        (.ok r.1, r.2)

/-- The body of POST /api/company/projects as the handler destructures it. -/
structure ProjectBody where
  title : String
  description : String
  requirements : Option String := none
  skills : Option (List String) := none
  payment : Rat
  difficulty : Option String := none
  deadline : Option Nat := none
  maxSubmissions : Option Int := none
deriving DecidableEq, Repr

/-- POST /api/company/projects. -/
def postCompanyProject (db : DB) (userId : String) (body : ProjectBody)
    (newId : String) (now : Nat) : HttpResult Project × DB :=
  match getCompanyByUserId db userId with
  | none => (.error 404 "Company not found", db)
  | some company =>
    if company.status ≠ "approved" then
      (.error 403 "Company must be approved to post projects", db)
    else
      let p : Project :=
        { id := newId, companyId := company.id, title := body.title
          description := body.description, requirements := body.requirements
          skills := body.skills, payment := body.payment, difficulty := body.difficulty
          deadline := body.deadline, maxSubmissions := body.maxSubmissions
          status := "pending", createdAt := now, updatedAt := now }
      let r := createProject db p
      (.ok r.1, r.2)

/-- The body of POST /api/company/submissions/:id/review: the decision flag,
an optional numeric rating (the handler tests it for JS truthiness, so a 0 is
treated like an absent rating), and optional feedback text. -/
structure ReviewBody where
  approved : Bool
  rating : Option Int := none
  feedback : Option String := none
deriving DecidableEq, Repr

/-- POST /api/company/submissions/:id/review: ownership gate, then the status
update, then (on approval) the rating insert (when a truthy score was sent)
and the payment insert.  Note there is no check of the submission's current
status before the update. -/
def reviewSubmission (db : DB) (userId submissionId : String) (body : ReviewBody)
    (ratingId paymentId : String) (now : Nat) : HttpResult Unit × DB :=
  match getCompanyByUserId db userId with
  | none => (.error 404 "Company not found", db)
  | some company =>
    match getSubmission db submissionId with
    | none => (.error 404 "Submission not found", db)
    | some submission =>
      match getProject db submission.projectId with
      | none => (.error 403 "Not authorized to review this submission", db)
      | some project =>
        if project.companyId ≠ company.id then
          (.error 403 "Not authorized to review this submission", db)
        else
          let db1 := (updateSubmission db submissionId
            { status := some (if body.approved then "approved" else "rejected")
              feedback := body.feedback } now).2
          if body.approved then
            let db2 :=
              match body.rating with
              | some score =>
                if score ≠ 0 then
                  (createRating db1
                    { id := ratingId, submissionId := submissionId
                      candidateId := submission.candidateId, companyId := company.id
                      score := score, review := body.feedback, createdAt := now }).2
                else db1
              | none => db1
            let pay : Payment :=
              { id := paymentId, submissionId := submissionId
                candidateId := submission.candidateId, companyId := company.id
                amount := project.payment, status := "paid", paidAt := some now
                createdAt := now }
            (.ok (), (createPayment db2 pay).2)
          else
            (.ok (), db1)

/-- POST /api/admin/companies/:id/review: unconditionally writes the decision
status; responds success even when no company row matched. -/
def adminReviewCompany (db : DB) (companyId : String) (approved : Bool) (now : Nat) :
    HttpResult Unit × DB :=
  let r := updateCompany db companyId
    { status := some (if approved then "approved" else "rejected") } now
  (.ok (), r.2)

/-- POST /api/admin/projects/:id/review: unconditionally writes the decision
status; responds success even when no project row matched. -/
def adminReviewProject (db : DB) (projectId : String) (approved : Bool) (now : Nat) :
    HttpResult Unit × DB :=
  let r := updateProject db projectId
    { status := some (if approved then "active" else "cancelled") } now
  (.ok (), r.2)

end Layoffers

namespace Layoffers

/-! ## Concrete fixtures used by counterexample and witness theorems -/

/-- A candidate user row. -/
def candUser : User :=
  { id := "cand", email := none, firstName := none, lastName := none
    profileImageUrl := none, role := "candidate", skills := none, experience := none
    portfolioUrl := none, bio := none, createdAt := 0, updatedAt := 0 }

/-- The user owning the fixture company. -/
def compUser : User :=
  { candUser with id := "cu", role := "company" }

/-- An approved fixture company owned by `compUser`. -/
def acmeCompany : Company :=
  { id := "c1", userId := "cu", name := "Acme", description := none, website := none
    logoUrl := none, industry := none, size := none, status := "approved"
    createdAt := 0, updatedAt := 0 }

/-- An active fixture project of `acmeCompany` paying 250. -/
def landingProject : Project :=
  { id := "p1", companyId := "c1", title := "Build landing page", description := "build it"
    requirements := none, skills := none, payment := 250, difficulty := none
    deadline := none, maxSubmissions := none, status := "active", createdAt := 0
    updatedAt := 0 }

/-- A pending submission by `candUser` to `landingProject`. -/
def pendingSub : Submission :=
  { id := "s1", projectId := "p1", candidateId := "cand", content := "done"
    attachmentUrl := none, status := "pending", feedback := none, createdAt := 1
    updatedAt := 1 }

/-- The same submission after a first approving review. -/
def approvedSub : Submission :=
  { pendingSub with status := "approved", updatedAt := 2 }

/-- The payment settled by the first approving review. -/
def firstPayment : Payment :=
  { id := "pay0", submissionId := "s1", candidateId := "cand", companyId := "c1"
    amount := 250, status := "paid", paidAt := some 2, createdAt := 2 }

/-- The rating recorded by the first approving review. -/
def firstRating : Rating :=
  { id := "r0", submissionId := "s1", candidateId := "cand", companyId := "c1"
    score := 5, review := none, createdAt := 2 }

/-- State with the submission still pending, ready for its first review. -/
def reviewDB : DB :=
  { users := [candUser, compUser], companies := [acmeCompany]
    projects := [landingProject], submissions := [pendingSub], ratings := []
    payments := [] }

/-- State after the first approving review: the submission is already in the
terminal status `approved` and has its rating and payment. -/
def reviewedDB : DB :=
  { reviewDB with
    submissions := [approvedSub]
    ratings := [firstRating]
    payments := [firstPayment] }

/-- A lone candidate user with no company yet. -/
def soloDB : DB :=
  { users := [{ candUser with id := "u1" }], companies := [], projects := []
    submissions := [], ratings := [], payments := [] }

/-- The company-profile body used in fixtures. -/
def acmeBody : CompanyBody := { name := "Acme" }

/-- A state with nothing in it. -/
def emptyDB : DB :=
  { users := [], companies := [], projects := [], submissions := [], ratings := []
    payments := [] }

/-! ## Claim theorems -/

/-- C1: the review handler has no guard on the submission's current status.  A
second review call against a submission already in the terminal status
`approved` does not fail: it returns success, rewrites the status, and inserts
a second Payment row and a second Rating row, so the claimed
InvalidState/SubmissionAlreadyReviewed failure and the once-only transition do
not hold of the code. -/
theorem double_review_succeeds_and_pays_again :
    (reviewSubmission reviewedDB ("cu") ("s1")
        { approved := true, rating := some 4, feedback := some ("again") }
        ("r2") ("pay2") 20).1 = .ok ()
    ∧ ((reviewSubmission reviewedDB ("cu") ("s1")
        { approved := true, rating := some 4, feedback := some ("again") }
        ("r2") ("pay2") 20).2.payments.map Payment.id = ["pay0", "pay2"])
    ∧ ((reviewSubmission reviewedDB ("cu") ("s1")
        { approved := true, rating := some 4, feedback := some ("again") }
        ("r2") ("pay2") 20).2.ratings.map Rating.id = ["r0", "r2"]) := by
  refine ⟨rfl, ?_, ?_⟩ <;> decide

/-- C2: the role flip and the company insert are two independent storage calls
with no transaction.  When the company insert fails after the role update has
committed, the handler answers 500 and the state is left partial: the user's
role is already `company` while no Company row owned by the user exists. -/
theorem company_creation_not_atomic :
    (postCompanyProfile soloDB ("u1") acmeBody ("c1") 7 false true).1
      = .error 500 "Failed to create company"
    ∧ ((postCompanyProfile soloDB ("u1") acmeBody ("c1") 7 false true).2.users.map
        User.role = ["company"])
    ∧ getCompanyByUserId
        (postCompanyProfile soloDB ("u1") acmeBody ("c1") 7 false true).2 ("u1") = none := by
  refine ⟨?_, ?_, ?_⟩ <;> decide

/-- C7 counterexample: admin review is not one-shot.  Starting from a company
already in the terminal status `approved` and a project already in the
terminal status `active`, a further admin review call with the opposite
decision succeeds and changes both statuses. -/
theorem admin_review_flips_terminal_status :
    (adminReviewCompany reviewedDB ("c1") false 3).1 = .ok ()
    ∧ ((adminReviewCompany reviewedDB ("c1") false 3).2.companies.map
        Company.status = ["rejected"])
    ∧ ((adminReviewProject reviewedDB ("p1") false 3).2.projects.map
        Project.status = ["cancelled"]) := by
  refine ⟨?_, ?_, ?_⟩ <;> decide

/-- C8 counterexample: no range check is applied to the rating score.  A
review request carrying rating 7 succeeds and stores a Rating row whose score
is 7, outside [1,5]. -/
theorem rating_score_seven_stored :
    (reviewSubmission reviewDB ("cu") ("s1")
        { approved := true, rating := some 7, feedback := some ("wow") }
        ("r1") ("pay1") 9).1 = .ok ()
    ∧ ((reviewSubmission reviewDB ("cu") ("s1")
        { approved := true, rating := some 7, feedback := some ("wow") }
        ("r1") ("pay1") 9).2.ratings.map Rating.score = [7]) := by
  refine ⟨?_, ?_⟩ <;> decide

/-- C9: the candidate-stats aggregate computes COALESCE(AVG(score), 0), so a
candidate with no Rating rows gets the defined sentinel 0 as averageRating. -/
theorem averageRating_empty_is_zero (db : DB) (candidateId : String)
    (h : db.ratings.filter (fun r => r.candidateId == candidateId) = []) :
    (getCandidateStats db candidateId).averageRating = 0 := by
  simp [getCandidateStats, h]

/-- Witness for C9 at the empty state. -/
theorem averageRating_empty_is_zero_witness :
    emptyDB.ratings.filter (fun r => r.candidateId == ("nobody")) = []
    ∧ (getCandidateStats emptyDB ("nobody")).averageRating = 0 :=
  ⟨rfl, averageRating_empty_is_zero emptyDB ("nobody") rfl⟩

/-- C10: PATCH /api/profile only rewrites the caller's own row, and even there
only the six profile fields and the timestamp: the projection of the user
table to (id, role, email) is unchanged for every request body, rows of other
users are untouched, and no other table is touched — so the endpoint cannot
change a role, an email or an id. -/
theorem patchProfile_frame_effect (db : DB) (userId : String) (body : ProfileBody)
    (now : Nat) :
    ((patchProfile db userId body now).2.users.map (fun u => (u.id, u.role, u.email))
      = db.users.map (fun u => (u.id, u.role, u.email)))
    ∧ ((patchProfile db userId body now).2.users.map
          (fun u => if u.id == userId then none else some u)
        = db.users.map (fun u => if u.id == userId then none else some u))
    ∧ (patchProfile db userId body now).2.companies = db.companies
    ∧ (patchProfile db userId body now).2.projects = db.projects
    ∧ (patchProfile db userId body now).2.submissions = db.submissions
    ∧ (patchProfile db userId body now).2.ratings = db.ratings
    ∧ (patchProfile db userId body now).2.payments = db.payments := by
  refine ⟨?_, ?_, rfl, rfl, rfl, rfl, rfl⟩
  · simp only [patchProfile, updateUserProfile]
    induction db.users with
    | nil => rfl
    | cons u us ih =>
      simp only [List.map_cons, List.cons.injEq]
      refine ⟨?_, ih⟩
      cases h : u.id == userId <;> simp [h, applyUserUpdates]
  · simp only [patchProfile, updateUserProfile]
    induction db.users with
    | nil => rfl
    | cons u us ih =>
      simp only [List.map_cons, List.cons.injEq]
      refine ⟨?_, ih⟩
      cases h : u.id == userId <;> simp [h, applyUserUpdates]

end Layoffers

namespace Layoffers

/-! ## Further fixtures -/

/-- A company still pending admin review, owned by a second company user. -/
def pendingCo : Company :=
  { acmeCompany with id := "c2", userId := "cu2", status := "pending" }

/-- State holding only the pending company. -/
def pendingCoDB : DB :=
  { emptyDB with companies := [pendingCo] }

/-- State holding only a cancelled project. -/
def cancelledDB : DB :=
  { emptyDB with projects := [{ landingProject with id := "p2", status := "cancelled" }] }

/-- A project-creation body used in witnesses. -/
def wProjectBody : ProjectBody :=
  { title := "T2", description := "D2", payment := 100 }

/-- The project row `postCompanyProject` builds from `wProjectBody` for the
approved fixture company at time 5 with id p9. -/
def wNewProject : Project :=
  { id := "p9", companyId := "c1", title := "T2", description := "D2"
    requirements := none, skills := none, payment := 100, difficulty := none
    deadline := none, maxSubmissions := none, status := "pending", createdAt := 5
    updatedAt := 5 }

/-- The submission row `postSubmission` builds for a second candidate. -/
def wNewSub : Submission :=
  { id := "s9", projectId := "p1", candidateId := "cand2", content := "hi"
    attachmentUrl := none, status := "pending", feedback := none, createdAt := 6
    updatedAt := 6 }

/-- An approving review body carrying rating 5. -/
def wApproveBody : ReviewBody :=
  { approved := true, rating := some 5, feedback := some ("great") }

/-! ## C7 amended and C8 amended -/

/-- C7 amended: the admin review handlers are not one-shot.  Every admin
review call succeeds and unconditionally sets the reviewed entity's status to
the value determined by the decision flag, regardless of the entity's current
(possibly already terminal) status; a later call with the opposite decision
therefore changes an already terminal status. -/
theorem admin_review_sets_decision_status (db : DB) (id : String) (approved : Bool)
    (now : Nat) :
    (adminReviewCompany db id approved now).1 = .ok ()
    ∧ (adminReviewProject db id approved now).1 = .ok ()
    ∧ (∀ c, c ∈ (adminReviewCompany db id approved now).2.companies →
        c.id = id → c.status = if approved then "approved" else "rejected")
    ∧ (∀ p, p ∈ (adminReviewProject db id approved now).2.projects →
        p.id = id → p.status = if approved then "active" else "cancelled") := by
  refine ⟨rfl, rfl, ?_, ?_⟩
  · intro c hc hcid
    simp only [adminReviewCompany, updateCompany, List.mem_map] at hc
    obtain ⟨c0, hmem, rfl⟩ := hc
    by_cases h : c0.id == id
    · simp [h]
    · simp only [h] at hcid ⊢
      simp only [Bool.false_eq_true, if_false] at hcid
      exact absurd hcid (by simpa using h)
  · intro p hp hpid
    simp only [adminReviewProject, updateProject, List.mem_map] at hp
    obtain ⟨p0, hmem, rfl⟩ := hp
    by_cases h : p0.id == id
    · simp [h]
    · simp only [h] at hpid ⊢
      simp only [Bool.false_eq_true, if_false] at hpid
      exact absurd hpid (by simpa using h)

/-- Witness for the amended C7 at the already-reviewed fixture state. -/
theorem admin_review_sets_decision_status_witness :
    (adminReviewCompany reviewedDB ("c1") true 4).1 = .ok ()
    ∧ ({ acmeCompany with status := "approved", updatedAt := 4 } : Company).status
        = if true then "approved" else "rejected" :=
  ⟨(admin_review_sets_decision_status reviewedDB ("c1") true 4).1,
   (admin_review_sets_decision_status reviewedDB ("c1") true 4).2.2.1
     { acmeCompany with status := "approved", updatedAt := 4 } (by decide) rfl⟩

/-- C8 amended: the stored rating score is the request's rating value taken
verbatim.  Whenever a review call succeeds with approved=true and a nonzero
rating value, exactly one Rating row is appended and its score equals the
supplied value — no [1,5] range check is applied anywhere on the path. -/
theorem rating_score_passed_through (db : DB) (userId submissionId : String)
    (body : ReviewBody) (ratingId paymentId : String) (now : Nat) (score : Int)
    (happ : body.approved = true) (hr : body.rating = some score) (hnz : score ≠ 0)
    (hok : (reviewSubmission db userId submissionId body ratingId paymentId now).1
      = .ok ()) :
    (reviewSubmission db userId submissionId body ratingId paymentId now).2.ratings.map
        Rating.score
      = db.ratings.map Rating.score ++ [score] := by
  rcases hc : getCompanyByUserId db userId with _ | company
  · simp [reviewSubmission, hc] at hok
  · rcases hs : getSubmission db submissionId with _ | sub
    · simp [reviewSubmission, hc, hs] at hok
    · rcases hp : getProject db sub.projectId with _ | proj
      · simp [reviewSubmission, hc, hs, hp] at hok
      · by_cases hown : proj.companyId = company.id
        · simp only [reviewSubmission, hc, hs, hp, happ, hr,
            if_neg (not_not_intro hown), if_pos hnz, if_pos rfl]
          simp [createPayment, createRating, updateSubmission]
        · simp [reviewSubmission, hc, hs, hp, if_pos hown] at hok

/-- Witness for the amended C8: the out-of-range score 7 is stored verbatim. -/
theorem rating_score_passed_through_witness :
    (reviewSubmission reviewDB ("cu") ("s1")
        { approved := true, rating := some 7, feedback := some ("wow") }
        ("r1") ("pay1") 9).2.ratings.map Rating.score
      = reviewDB.ratings.map Rating.score ++ [7] :=
  rating_score_passed_through reviewDB ("cu") ("s1")
    { approved := true, rating := some 7, feedback := some ("wow") }
    ("r1") ("pay1") 9 7 rfl rfl (by decide) (by decide)

end Layoffers

namespace Layoffers

/-- C3: a successful review call settles exactly one payment on approval and
none on rejection.  If the call answers success, then: with approved=true the
payments table is extended by exactly one row whose amount is the owning
project's payment, whose status is paid and whose paidAt is the review time;
with approved=false the payments table is unchanged. -/
theorem approval_settlement (db : DB) (userId submissionId : String)
    (body : ReviewBody) (ratingId paymentId : String) (now : Nat)
    (sub : Submission) (proj : Project)
    (hsub : getSubmission db submissionId = some sub)
    (hproj : getProject db sub.projectId = some proj)
    (hok : (reviewSubmission db userId submissionId body ratingId paymentId now).1
      = .ok ()) :
    (reviewSubmission db userId submissionId body ratingId paymentId now).2.payments
      = if body.approved then
          db.payments ++
            [{ id := paymentId, submissionId := submissionId
               candidateId := sub.candidateId, companyId := proj.companyId
               amount := proj.payment, status := "paid", paidAt := some now
               createdAt := now }]
        else db.payments := by
  rcases hc : getCompanyByUserId db userId with _ | company
  · simp [reviewSubmission, hc] at hok
  · by_cases hown : proj.companyId = company.id
    · cases happ : body.approved
      · simp only [reviewSubmission, hc, hsub, hproj, happ,
          if_neg (not_not_intro hown), Bool.false_eq_true, if_false]
        simp [updateSubmission]
      · simp only [reviewSubmission, hc, hsub, hproj, happ, if_true,
          if_neg (not_not_intro hown)]
        rcases hr : body.rating with _ | score
        · simp [createPayment, updateSubmission, hown]
        · by_cases hz : score = 0
          · simp [hz, createPayment, updateSubmission, hown]
          · simp [hz, createPayment, createRating, updateSubmission, hown]
    · simp [reviewSubmission, hc, hsub, hproj, if_pos hown] at hok

/-- Witness for C3: approving the pending fixture submission settles one paid
payment of the project's amount 250 at the review time. -/
theorem approval_settlement_witness :
    getSubmission reviewDB ("s1") = some pendingSub
    ∧ (reviewSubmission reviewDB ("cu") ("s1") wApproveBody ("r1") ("pay1") 9).2.payments
      = if wApproveBody.approved then
          reviewDB.payments ++
            [{ id := "pay1", submissionId := "s1"
               candidateId := pendingSub.candidateId
               companyId := landingProject.companyId
               amount := landingProject.payment, status := "paid", paidAt := some 9
               createdAt := 9 }]
        else reviewDB.payments :=
  ⟨by decide,
   approval_settlement reviewDB ("cu") ("s1") wApproveBody ("r1") ("pay1") 9
     pendingSub landingProject (by decide) (by decide) (by decide)⟩

/-- C5: only an approved company can create a project.  When the caller's
company exists but its status is not approved, the call fails with 403 and
leaves the state unchanged; when the call succeeds, the returned project has
status pending and is the only row appended. -/
theorem project_creation_requires_approved_company (db : DB) (userId : String)
    (body : ProjectBody) (newId : String) (now : Nat) :
    (∀ company, getCompanyByUserId db userId = some company →
      company.status ≠ "approved" →
      postCompanyProject db userId body newId now
        = (.error 403 "Company must be approved to post projects", db))
    ∧ (∀ proj, (postCompanyProject db userId body newId now).1 = .ok proj →
        proj.status = "pending"
        ∧ (postCompanyProject db userId body newId now).2.projects
          = db.projects ++ [proj]) := by
  constructor
  · intro company hc hne
    simp [postCompanyProject, hc, if_pos hne]
  · intro proj hok
    rcases hc : getCompanyByUserId db userId with _ | company
    · simp [postCompanyProject, hc] at hok
    · by_cases hst : company.status = "approved"
      · simp only [postCompanyProject, hc, if_neg (not_not_intro hst),
          createProject] at hok ⊢
        cases hok
        exact ⟨rfl, rfl⟩
      · simp [postCompanyProject, hc, if_pos hst] at hok

/-- Witness for C5: the pending fixture company is refused with 403 and no
row; the approved fixture company gets a pending project appended. -/
theorem project_creation_requires_approved_company_witness :
    postCompanyProject pendingCoDB ("cu2") wProjectBody ("p9") 5
      = (.error 403 "Company must be approved to post projects", pendingCoDB)
    ∧ wNewProject.status = "pending"
    ∧ (postCompanyProject reviewDB ("cu") wProjectBody ("p9") 5).2.projects
      = reviewDB.projects ++ [wNewProject] := by
  refine ⟨?_, ?_, ?_⟩
  · exact (project_creation_requires_approved_company pendingCoDB ("cu2")
      wProjectBody ("p9") 5).1 pendingCo (by decide) (by decide)
  · exact ((project_creation_requires_approved_company reviewDB ("cu")
      wProjectBody ("p9") 5).2 wNewProject (by decide)).1
  · exact ((project_creation_requires_approved_company reviewDB ("cu")
      wProjectBody ("p9") 5).2 wNewProject (by decide)).2

/-- C6: a submission can only be created against an existing active project.
A missing project or a non-active status yields the 400 error and an
unchanged state; a successful call returns a submission in status pending. -/
theorem submission_requires_active_project (db : DB) (userId projectId : String)
    (content : String) (att : Option String) (newId : String) (now : Nat) :
    (getProject db projectId = none →
      postSubmission db userId projectId content att newId now
        = (.error 400 "Project not available for submissions", db))
    ∧ (∀ proj, getProject db projectId = some proj → proj.status ≠ "active" →
        postSubmission db userId projectId content att newId now
          = (.error 400 "Project not available for submissions", db))
    ∧ (∀ s, (postSubmission db userId projectId content att newId now).1 = .ok s →
        s.status = "pending") := by
  refine ⟨?_, ?_, ?_⟩
  · intro hnone
    simp [postSubmission, hnone]
  · intro proj hp hne
    simp [postSubmission, hp, if_pos hne]
  · intro s hok
    rcases hp : getProject db projectId with _ | proj
    · simp [postSubmission, hp] at hok
    · by_cases hst : proj.status = "active"
      · rcases hf : getSubmissionByProjectAndCandidate db projectId userId with _ | s0
        · simp only [postSubmission, hp, if_neg (not_not_intro hst), hf,
            createSubmission] at hok
          cases hok
          rfl
        · simp [postSubmission, hp, if_neg (not_not_intro hst), hf] at hok
      · simp [postSubmission, hp, if_pos hst] at hok

/-- Witness for C6: a missing project and a cancelled project are both
refused with the 400 error, and a fresh submission comes back pending. -/
theorem submission_requires_active_project_witness :
    postSubmission emptyDB ("x") ("nope") ("hi") none ("s9") 6
      = (.error 400 "Project not available for submissions", emptyDB)
    ∧ postSubmission cancelledDB ("cand") ("p2") ("hi") none ("s9") 6
      = (.error 400 "Project not available for submissions", cancelledDB)
    ∧ wNewSub.status = "pending" := by
  refine ⟨?_, ?_, ?_⟩
  · exact (submission_requires_active_project emptyDB ("x") ("nope") ("hi")
      none ("s9") 6).1 (by decide)
  · exact (submission_requires_active_project cancelledDB ("cand") ("p2") ("hi")
      none ("s9") 6).2.1 { landingProject with id := "p2", status := "cancelled" }
      (by decide) (by decide)
  · exact (submission_requires_active_project reviewDB ("cand2") ("p1") ("hi")
      none ("s9") 6).2.2 wNewSub (by decide)

end Layoffers

namespace Layoffers

/-- At most one submission row per (projectId, candidateId) pair. -/
def SubmissionsUnique (l : List Submission) : Prop :=
  l.Pairwise (fun a b => ¬(a.projectId = b.projectId ∧ a.candidateId = b.candidateId))

/-- The arguments of one POST /api/projects/:id/submissions call. -/
structure SubCall where
  userId : String
  projectId : String
  content : String
  attachmentUrl : Option String
  newId : String
  now : Nat
deriving DecidableEq, Repr

/-- Run a sequence of submission-creation calls, threading the state. -/
def runSubmissionCalls (db : DB) (calls : List SubCall) : DB :=
  calls.foldl
    (fun d c =>
      (postSubmission d c.userId c.projectId c.content c.attachmentUrl c.newId c.now).2)
    db

/-- One submission-creation call preserves pair-uniqueness: the handler only
inserts after `getSubmissionByProjectAndCandidate` found nothing. -/
theorem postSubmission_preserves_unique (db : DB) (userId projectId content : String)
    (att : Option String) (newId : String) (now : Nat)
    (h : SubmissionsUnique db.submissions) :
    SubmissionsUnique
      (postSubmission db userId projectId content att newId now).2.submissions := by
  rcases hp : getProject db projectId with _ | proj
  · simpa only [postSubmission, hp] using h
  · by_cases hst : proj.status = "active"
    · rcases hf : getSubmissionByProjectAndCandidate db projectId userId with _ | s0
      · simp only [postSubmission, hp, if_neg (not_not_intro hst), hf,
          createSubmission]
        unfold SubmissionsUnique at h ⊢
        rw [List.pairwise_append]
        refine ⟨h, List.pairwise_singleton _ _, ?_⟩
        intro a ha b hb
        simp only [List.mem_singleton] at hb
        subst hb
        unfold getSubmissionByProjectAndCandidate at hf
        rw [List.find?_eq_none] at hf
        have hfa := hf a ha
        simp only [Bool.and_eq_true, beq_iff_eq, not_and] at hfa
        simp only [not_and]
        intro h1 h2
        exact hfa (by simpa using h1) (by simpa using h2)
      · simpa only [postSubmission, hp, if_neg (not_not_intro hst), hf] using h
    · simpa only [postSubmission, hp, if_pos hst] using h

/-- C4: starting from a state whose submissions are pair-unique, any sequence
of submission-creation calls keeps them pair-unique, and a creation attempt by
a candidate who already has a submission for the (active) project fails with
the duplicate error and leaves the state unchanged. -/
theorem submission_pair_uniqueness (db : DB) (h : SubmissionsUnique db.submissions) :
    (∀ calls, SubmissionsUnique (runSubmissionCalls db calls).submissions)
    ∧ (∀ userId projectId content att newId now proj,
        getProject db projectId = some proj → proj.status = "active" →
        (∃ s, s ∈ db.submissions ∧ s.projectId = projectId ∧ s.candidateId = userId) →
        postSubmission db userId projectId content att newId now
          = (.error 400 "You have already submitted to this project", db)) := by
  constructor
  · have step : ∀ (l : List SubCall) (d : DB), SubmissionsUnique d.submissions →
        SubmissionsUnique (runSubmissionCalls d l).submissions := by
      intro l
      induction l with
      | nil => intro d hd; exact hd
      | cons c cs ih =>
        intro d hd
        exact ih _ (postSubmission_preserves_unique d c.userId c.projectId
          c.content c.attachmentUrl c.newId c.now hd)
    intro calls
    exact step calls db h
  · intro userId projectId content att newId now proj hp hst hex
    rcases hf : getSubmissionByProjectAndCandidate db projectId userId with _ | s0
    · exfalso
      unfold getSubmissionByProjectAndCandidate at hf
      rw [List.find?_eq_none] at hf
      obtain ⟨s, hs, h1, h2⟩ := hex
      have := hf s hs
      simp [h1, h2] at this
    · simp [postSubmission, hp, if_neg (not_not_intro hst), hf]

/-- Witness for C4 at the fixture state: the single-submission state is
pair-unique, stays pair-unique after a further call, and the duplicate second
attempt by the same candidate is refused without a state change. -/
theorem submission_pair_uniqueness_witness :
    SubmissionsUnique reviewDB.submissions
    ∧ SubmissionsUnique
        (runSubmissionCalls reviewDB
          [{ userId := "cand2", projectId := "p1", content := "hi"
             attachmentUrl := none, newId := "s9", now := 6 }]).submissions
    ∧ postSubmission reviewDB ("cand") ("p1") ("dup") none ("s9") 6
      = (.error 400 "You have already submitted to this project", reviewDB) := by
  have huniq : SubmissionsUnique reviewDB.submissions := by
    simp [SubmissionsUnique, reviewDB]
  refine ⟨huniq, ?_, ?_⟩
  · exact (submission_pair_uniqueness reviewDB huniq).1 _
  · exact (submission_pair_uniqueness reviewDB huniq).2 ("cand") ("p1") ("dup")
      none ("s9") 6 landingProject (by decide) rfl ⟨pendingSub, by decide, rfl, rfl⟩

end Layoffers
